import Mathlib

/-!
Verification of `host_command_executor.py` (jb-gateway).

The script is a REPL that tracks a virtual working directory and delegates
commands to a privileged Docker-based execution bridge.  We shallowly embed
the Python string primitives it uses (`str.strip`, `str.lower`, slicing,
`str.startswith`, `str.split`, `os.path.join`, `os.path.normpath`,
`os.path.isabs`) over `List Char`, then embed the functions
`get_user_shell`, `execute_host_command` and the body of the loop in
`interactive_host_shell`, and prove the specification claims about them.
External effects (the exit code of a `subprocess.run`, the environment) are
passed in explicitly as oracle parameters.
-/

/-- Decides whether `p` is an initial segment of `s` (the character-level
content of Python's `str.startswith`). -/
def beginsWithChars : List Char → List Char → Bool
  | [], _ => true
  | _ :: _, [] => false
  | p :: ps, c :: cs => p = c && beginsWithChars ps cs

/-- Python `s.startswith(pre)`. -/
def pyStartswith (s pre : String) : Bool := beginsWithChars pre.data s.data

/-- Python `s.endswith(suf)`. -/
def pyEndswith (s suf : String) : Bool := beginsWithChars suf.data.reverse s.data.reverse

/-- The ASCII whitespace characters stripped by Python's `str.strip()`. -/
def pyIsSpace (c : Char) : Bool :=
  c = ' ' || c = '\t' || c = '\n' || c = '\r' || c = '\x0b' || c = '\x0c'

/-- Python `s.strip()`: remove whitespace from both ends. -/
def pyStrip (s : String) : String :=
  ⟨((s.data.dropWhile pyIsSpace).reverse.dropWhile pyIsSpace).reverse⟩

/-- Python `str.lower` on one character (ASCII range, the one relevant here). -/
def pyLowerChar (c : Char) : Char :=
  if 'A' ≤ c ∧ c ≤ 'Z' then Char.ofNat (c.toNat + 32) else c

/-- Python `s.lower()`. -/
def pyLower (s : String) : String := ⟨s.data.map pyLowerChar⟩

/-- Python slicing `s[n:]`. -/
def pySliceFrom (s : String) (n : Nat) : String := ⟨s.data.drop n⟩

/-- Worker for Python `s.split(sep)` with a one-character separator:
`acc` holds the current component reversed. -/
def splitCharGo (sep : Char) : List Char → List Char → List String
  | [], acc => [⟨acc.reverse⟩]
  | c :: cs, acc =>
    if c = sep then ⟨acc.reverse⟩ :: splitCharGo sep cs []
    else splitCharGo sep cs (c :: acc)

/-- Python `s.split(sep)` for a one-character separator (keeps empty parts). -/
def pySplitChar (s : String) (sep : Char) : List String := splitCharGo sep s.data []

/-- Python `sep.join(parts)`. -/
def pySepJoin (sep : String) : List String → String
  | [] => ""
  | [x] => x
  | x :: y :: xs => x ++ sep ++ pySepJoin sep (y :: xs)

/-- Python `os.path.isabs` (POSIX): path starts with `/`. -/
def pyIsAbs (p : String) : Bool := pyStartswith p "/"

/-- Python `os.path.join(a, b)` (POSIX, two arguments). -/
def pyJoin (a b : String) : String :=
  if pyStartswith b "/" then b
  else if a = "" || pyEndswith a "/" then a ++ b
  else a ++ "/" ++ b

/-- The `initial_slashes` count of CPython's `posixpath.normpath`:
2 for exactly two leading slashes, 1 for one or three-plus, 0 otherwise. -/
def initialSlashes (path : String) : Nat :=
  if pyStartswith path "/" then
    if pyStartswith path "//" && !(pyStartswith path "///") then 2 else 1
  else 0

/-- One iteration of the component loop of `posixpath.normpath`:
skip empty and `.` components, append ordinary ones, let `..` pop the
previous component unless it must be kept. -/
def normpathStep (hasInit : Bool) (newComps : List String) (comp : String) : List String :=
  if comp = "" ∨ comp = "." then newComps
  else if comp ≠ ".." ∨ (hasInit = false ∧ newComps = []) ∨
      (newComps ≠ [] ∧ newComps.getLast? = some "..") then
    newComps ++ [comp]
  else if newComps ≠ [] then newComps.dropLast
  else newComps

/-- Python `'/' * n`. -/
def repeatSep (n : Nat) : String := ⟨List.replicate n '/'⟩

/-- Python `os.path.normpath` (POSIX): lexical normalization, collapsing
`.`, empty and (where possible) `..` components. -/
def pyNormpath (path : String) : String :=
  if path = "" then "."
  else
    let init := initialSlashes path
    let comps := pySplitChar path '/'
    let newComps := comps.foldl (normpathStep (init > 0)) []
    let res := repeatSep init ++ pySepJoin "/" newComps
    if res = "" then "." else res

/-- The classification performed on each input line by
`interactive_host_shell` (lines 188–210): a trimmed, lower-cased exact
match on `exit`/`quit` terminates; a trimmed line starting with the
(case-sensitive) prefix `cd ` is navigation, with target
`command.strip()[3:].strip()`; everything else is a generic command kept
verbatim. -/
inductive Intent where
  | terminate
  | navigate (target : String)
  | generic (text : String)
  deriving DecidableEq, Repr

/-- Line classification of `interactive_host_shell`, verbatim from the
source conditions. -/
def classify (command : String) : Intent :=
  if pyLower (pyStrip command) = "exit" ∨ pyLower (pyStrip command) = "quit" then
    .terminate
  else if pyStartswith (pyStrip command) "cd " then
    .navigate (pyStrip (pySliceFrom (pyStrip command) 3))
  else
    .generic command

/-- Target resolution for `cd` (lines 198–199): relative targets are joined
to the working directory and lexically normalized; absolute targets are
kept verbatim. -/
def resolveTarget (workingDir target : String) : String :=
  if pyIsAbs target then target
  else pyNormpath (pyJoin workingDir target)

/-- REPL session state: the username and the tracked working directory. -/
structure Session where
  username : String
  workingDir : String
  deriving DecidableEq, Repr

/-- Result of one loop iteration: continue with a (possibly updated)
session and the lines printed by the loop body, or terminate with an exit
code. -/
inductive StepResult where
  | cont (s : Session) (printed : List String)
  | terminated (exitCode : Int)
  deriving DecidableEq, Repr

/-- One iteration of the `while True` loop of `interactive_host_shell`
(lines 185–210).  `bridgeExit` is the exit code returned by
`execute_host_command` for this iteration's bridge call (the verification
call for navigation, the dispatch call for generic commands). -/
def stepLoop (s : Session) (command : String) (bridgeExit : Int) : StepResult :=
  match classify command with
  | .terminate => .terminated 0
  | .navigate target =>
    let new_dir := resolveTarget s.workingDir target
    if bridgeExit = 0 then
      .cont { s with workingDir := new_dir } ["Changed directory to: " ++ new_dir]
    else
      .cont s ["Directory not found: " ++ new_dir]
  | .generic _ => .cont s []

/-- Sessions reachable by the loop: the initial state has working directory
`/` (line 173), and each non-terminating iteration may update it. -/
inductive Reachable : Session → Prop where
  | init (username : String) : Reachable ⟨username, "/"⟩
  | step {s s2 : Session} {printed : List String} (cmd : String) (ec : Int) :
      Reachable s → stepLoop s cmd ec = .cont s2 printed → Reachable s2

/-- Outcome of the `subprocess.run` launch inside `execute_host_command`:
either the helper ran and produced a return code, or launching raised an
exception carrying a message. -/
inductive RunOutcome where
  | ran (returncode : Int)
  | raised (message : String)
  deriving DecidableEq, Repr

/-- Observable result of `execute_host_command`: the username it resolved,
the helper invocation it composed, the exit code it returned, and the
lines it wrote to the diagnostic stream (`stderr`). -/
structure ExecResult where
  resolvedUsername : String
  dockerInvocation : List String
  exitCode : Int
  stderrLines : List String
  deriving DecidableEq, Repr

/-- The username defaulting shared by `execute_host_command` and
`interactive_host_shell` (lines 98–100, 164–166): a missing or empty
username falls back to `HOST_USER`, then `USER`, then `root`.  The two
environment variables are passed explicitly as oracles. -/
def resolveUsername (username : Option String) (hostUserEnv userEnv : Option String) : String :=
  match username with
  | some u => if u = "" then hostUserEnv.getD (userEnv.getD "root") else u
  | none => hostUserEnv.getD (userEnv.getD "root")

/-- Embedding of `execute_host_command` (lines 73–141): defaults the username and the
working directory, composes `cd <working_dir> && <command>`, invokes
`docker run` with host PID and network namespaces, the host root bound at
`/host`, and a `chroot`ed `sh -c` of the composed instruction; returns the
helper's exit code, or writes an error line and returns 1 when the launch
raises. -/
def execute_host_command (command : String) (username : Option String)
    (working_dir : Option String) (hostUserEnv userEnv : Option String)
    (outcome : RunOutcome) : ExecResult :=
  let uname := resolveUsername username hostUserEnv userEnv
  let wd := working_dir.getD "/"
  let composed := "cd " ++ wd ++ " && " ++ command
  let docker_cmd := ["docker", "run", "--rm", "--pid=host", "--network=host",
    "--volume=/:/host", "alpine:latest", "chroot", "/host", "sh", "-c", composed]
  match outcome with
  | .ran rc =>
    { resolvedUsername := uname, dockerInvocation := docker_cmd,
      exitCode := rc, stderrLines := [] }
  | .raised msg =>
    { resolvedUsername := uname, dockerInvocation := docker_cmd,
      exitCode := 1,
      stderrLines := ["Error executing command on host: " ++ msg] }

/-- Outcome of the `subprocess.run(["getent", "passwd", username], ...,
check=True)` call inside `get_user_shell`: either it succeeded and
produced `stdout`, or it raised (account absent gives a nonzero exit and
hence `CalledProcessError`; a missing tool raises as well). -/
inductive GetentOutcome where
  | ok (stdout : String)
  | raised (message : String)
  deriving DecidableEq, Repr

/-- Observable result of `get_user_shell`: the returned shell path and the
warning line written to `stderr`, if any. -/
structure ShellResult where
  shell : String
  warning : Option String
  deriving DecidableEq, Repr

/-- Embedding of `get_user_shell` (lines 40–71): on a successful `getent` query, splits
the trimmed output on `:` and returns field 6 when at least 7 fields are
present; otherwise falls through to the default `/bin/bash`.  A warning is
printed only on the exception path. -/
def get_user_shell (username : String) (outcome : GetentOutcome) : ShellResult :=
  match outcome with
  | .ok stdout =>
    let user_info := pySplitChar (pyStrip stdout) ':'
    if 7 ≤ user_info.length then
      { shell := user_info.getD 6 "", warning := none }
    else
      { shell := "/bin/bash", warning := none }
  | .raised msg =>
    { shell := "/bin/bash",
      warning := some ("Warning: Could not determine shell for user " ++
        username ++ ": " ++ msg) }

/-- Classification as worded by claim C5 (spec section 4.3): the trimmed,
lower-cased line is compared, with a case-INsensitive prefix match on
`cd ` (so `CD /tmp` would qualify).  This follows the claim's words, to be
compared with `classify`, which follows the source. -/
def classifySpecC5 (command : String) : Intent :=
  if pyLower (pyStrip command) = "exit" ∨ pyLower (pyStrip command) = "quit" then
    .terminate
  else if pyStartswith (pyLower (pyStrip command)) "cd " then
    .navigate (pyStrip (pySliceFrom (pyStrip command) 3))
  else
    .generic command

/-! ## Theorems -/

/-- C3: for every navigation input whose verification call returns a
non-zero exit code, the session is exactly the same before and after the
iteration, the message `Directory not found: <resolved target>` is
printed, and the loop continues rather than terminating. -/
theorem c3_navigation_failure_unchanged (s : Session) (cmd target : String) (ec : Int)
    (hnav : classify cmd = .navigate target) (hec : ec ≠ 0) :
    stepLoop s cmd ec =
      .cont s ["Directory not found: " ++ resolveTarget s.workingDir target] := by
  simp [stepLoop, hnav, hec]

/-- Witness for C3: `cd /nonexistent` failing verification leaves the
session at `/` and prints the message. -/
theorem c3_witness :
    stepLoop ⟨"root", "/"⟩ "cd /nonexistent" 1 =
      .cont ⟨"root", "/"⟩ ["Directory not found: " ++ resolveTarget "/" "/nonexistent"] :=
  c3_navigation_failure_unchanged ⟨"root", "/"⟩ "cd /nonexistent" "/nonexistent" 1
    (by decide) (by decide)

/-- C4: every input classified as a generic command leaves the session
(working directory and username) unchanged and continues the loop, for
every possible exit code returned by the bridge. -/
theorem c4_dispatch_frame (s : Session) (cmd text : String) (ec : Int)
    (hgen : classify cmd = .generic text) :
    stepLoop s cmd ec = .cont s [] := by
  simp [stepLoop, hgen]

/-- Witness for C4: dispatching `echo hi` with a failing exit code leaves
the session unchanged. -/
theorem c4_witness :
    stepLoop ⟨"root", "/"⟩ "echo hi" 7 = .cont ⟨"root", "/"⟩ [] :=
  c4_dispatch_frame ⟨"root", "/"⟩ "echo hi" "echo hi" 7 (by decide)

/-- Counterexample to C5 as stated: the code's prefix match on `cd ` is
case-SENSITIVE (`command.strip().startswith("cd ")`, line 193), so
`CD /tmp` is dispatched as a generic command, while the claim's
case-insensitive reading would classify it as navigation. -/
theorem c5_counterexample :
    classify "CD /tmp" = .generic "CD /tmp" ∧
    classifySpecC5 "CD /tmp" = .navigate "/tmp" ∧
    Intent.generic "CD /tmp" ≠ Intent.navigate "/tmp" := by
  refine ⟨by decide, by decide, by decide⟩

/-- C5 (amended): trimming and lower-casing are used for comparison only;
a trimmed line equal to `exit` or `quit` in any letter case terminates;
a trimmed line beginning with the case-sensitive prefix `cd ` is
navigation with the trimmed remainder as target; every other line,
including the empty line, is a generic command carrying the full original
(untrimmed, unlowered) text. -/
theorem c5_classification (line : String) :
    (classify line = .terminate ↔
      pyLower (pyStrip line) = "exit" ∨ pyLower (pyStrip line) = "quit") ∧
    (∀ t, classify line = .navigate t ↔
      ¬(pyLower (pyStrip line) = "exit" ∨ pyLower (pyStrip line) = "quit") ∧
      pyStartswith (pyStrip line) "cd " = true ∧
      t = pyStrip (pySliceFrom (pyStrip line) 3)) ∧
    (∀ t, classify line = .generic t ↔
      ¬(pyLower (pyStrip line) = "exit" ∨ pyLower (pyStrip line) = "quit") ∧
      pyStartswith (pyStrip line) "cd " = false ∧ t = line) := by
  by_cases h1 : pyLower (pyStrip line) = "exit" ∨ pyLower (pyStrip line) = "quit" <;>
    by_cases h2 : pyStartswith (pyStrip line) "cd " = true <;>
      simp_all [classify] <;> tauto

/-- Witness for C5: concrete classifications of a terminator, a
navigation line and a generic line, obtained from the characterization. -/
theorem c5_witness :
    classify "  QUIT " = .terminate ∧
    classify " cd  tmp " = .navigate "tmp" ∧
    classify "" = .generic "" :=
  ⟨((c5_classification "  QUIT ").1).mpr (by decide),
   ((c5_classification " cd  tmp ").2.1 "tmp").mpr (by decide),
   ((c5_classification "").2.2 "").mpr (by decide)⟩

/-- Counterexample to C2 as stated: with an absolute target the code
stores the target verbatim (line 198 guards the normalization, which is
applied only to relative targets), so after a successful `cd /tmp/.` the
working directory is `/tmp/.`, not its lexical normalization `/tmp`. -/
theorem c2_counterexample :
    stepLoop ⟨"root", "/"⟩ "cd /tmp/." 0 =
      .cont ⟨"root", "/tmp/."⟩ ["Changed directory to: /tmp/."] ∧
    pyNormpath "/tmp/." = "/tmp" ∧ ("/tmp/." : String) ≠ "/tmp" := by
  refine ⟨by decide, by decide, by decide⟩

/-- C2 (amended): for every navigation input whose verification returns
exit code 0, the post-state working directory equals the lexical
normalization of the target joined against the pre-state working
directory when the target is relative, and equals the target itself
verbatim (not normalized) when the target is absolute. -/
theorem c2_navigation_post_state (s : Session) (cmd target : String) (ec : Int)
    (hnav : classify cmd = .navigate target) (hec : ec = 0) :
    stepLoop s cmd ec =
      .cont ⟨s.username,
          if pyIsAbs target then target else pyNormpath (pyJoin s.workingDir target)⟩
        ["Changed directory to: " ++
          (if pyIsAbs target then target else pyNormpath (pyJoin s.workingDir target))] := by
  subst hec
  simp [stepLoop, hnav, resolveTarget]

/-- Witness for C2: `cd tmp` from `/` moves the session to the
normalization of the joined path. -/
theorem c2_witness :
    stepLoop ⟨"root", "/"⟩ "cd tmp" 0 =
      .cont ⟨"root", if pyIsAbs "tmp" then "tmp" else pyNormpath (pyJoin "/" "tmp")⟩
        ["Changed directory to: " ++
          (if pyIsAbs "tmp" then "tmp" else pyNormpath (pyJoin "/" "tmp"))] :=
  c2_navigation_post_state ⟨"root", "/"⟩ "cd tmp" "tmp" 0 (by decide) rfl

/-- C7: when the helper launch raises, `execute_host_command` writes an
error line to the diagnostic stream and returns the fixed generic failure
code 1 (non-zero) instead of propagating the fault.  (Non-raising is
inherent: the embedding is a total function.) -/
theorem c7_launch_failure (command : String)
    (username working_dir hostUserEnv userEnv : Option String) (msg : String) :
    (execute_host_command command username working_dir hostUserEnv userEnv
        (.raised msg)).exitCode = 1 ∧
    (execute_host_command command username working_dir hostUserEnv userEnv
        (.raised msg)).stderrLines = ["Error executing command on host: " ++ msg] ∧
    (1 : Int) ≠ 0 := by
  refine ⟨rfl, rfl, by decide⟩

/-- C8: for every command and working directory, the bridge invokes the
helper with host PID-namespace sharing, host network-namespace sharing, a
(read-write, no `:ro` suffix) bind of the host root at `/host`, a chroot
into that bind, and a POSIX `sh -c` of exactly
`cd <workingDirectory> && <command>`. -/
theorem c8_docker_invocation (command : String) (username : Option String)
    (wd : String) (hostUserEnv userEnv : Option String) (outcome : RunOutcome) :
    (execute_host_command command username (some wd) hostUserEnv userEnv
        outcome).dockerInvocation =
      ["docker", "run", "--rm", "--pid=host", "--network=host", "--volume=/:/host",
       "alpine:latest", "chroot", "/host", "sh", "-c",
       "cd " ++ wd ++ " && " ++ command] := by
  cases outcome <;> rfl

/-- Counterexample to C9 as stated: a successful `getent` query returning
a malformed record with fewer than seven fields falls through to the
default `/bin/bash` WITHOUT emitting any warning (the warning is printed
only in the exception handler, lines 67–68), while the claim requires a
warning on every failure including malformed records. -/
theorem c9_counterexample :
    get_user_shell "alice" (.ok "alice:x:1000:1000:Alice:/home/alice") =
      { shell := "/bin/bash", warning := none } := by
  decide

/-- C9 (amended): on success with at least seven fields,
`get_user_shell` returns the shell field (index 6) of the record with no
warning; when the query raises (account absent, tool unavailable) it
emits a warning and returns `/bin/bash`; on a malformed record (fewer
than seven fields) it returns `/bin/bash` silently, without a warning. -/
theorem c9_shell_resolution (username stdout msg : String) :
    ((get_user_shell username (.raised msg)).shell = "/bin/bash" ∧
     (get_user_shell username (.raised msg)).warning =
       some ("Warning: Could not determine shell for user " ++ username ++ ": " ++ msg)) ∧
    (7 ≤ (pySplitChar (pyStrip stdout) ':').length →
      get_user_shell username (.ok stdout) =
        { shell := (pySplitChar (pyStrip stdout) ':').getD 6 "", warning := none }) ∧
    ((pySplitChar (pyStrip stdout) ':').length < 7 →
      get_user_shell username (.ok stdout) =
        { shell := "/bin/bash", warning := none }) := by
  refine ⟨⟨rfl, rfl⟩, fun h => ?_, fun h => ?_⟩
  · simp [get_user_shell, h]
  · simp [get_user_shell, Nat.not_le.mpr h]

/-- Witness for C9: a well-formed seven-field record yields its shell
field; a three-field record yields the silent default. -/
theorem c9_witness :
    get_user_shell "alice" (.ok "alice:x:1000:1000:Alice:/home/alice:/bin/zsh") =
      { shell := "/bin/zsh", warning := none } ∧
    get_user_shell "bob" (.ok "bob:x:1000") =
      { shell := "/bin/bash", warning := none } :=
  ⟨((c9_shell_resolution "alice" "alice:x:1000:1000:Alice:/home/alice:/bin/zsh" "").2.1
      (by decide)).trans (by decide),
   (c9_shell_resolution "bob" "bob:x:1000" "").2.2 (by decide)⟩

/-- C10: for any two username arguments (including absent ones), and for
every command, working directory, environment and launch outcome,
`execute_host_command` composes the identical helper invocation and
returns the identical exit code (and diagnostic lines): the username has
no effect because user-context restriction is inactive (line 122 is
commented out in the source). -/
theorem c10_username_independent (command : String) (u1 u2 : Option String)
    (working_dir hostUserEnv userEnv : Option String) (outcome : RunOutcome) :
    (execute_host_command command u1 working_dir hostUserEnv userEnv outcome).exitCode =
      (execute_host_command command u2 working_dir hostUserEnv userEnv outcome).exitCode ∧
    (execute_host_command command u1 working_dir hostUserEnv userEnv outcome).dockerInvocation =
      (execute_host_command command u2 working_dir hostUserEnv userEnv outcome).dockerInvocation ∧
    (execute_host_command command u1 working_dir hostUserEnv userEnv outcome).stderrLines =
      (execute_host_command command u2 working_dir hostUserEnv userEnv outcome).stderrLines := by
  cases outcome <;> exact ⟨rfl, rfl, rfl⟩

/-! ### Auxiliary lemmas about the path primitives -/

theorem beginsWithChars_append (p a b : List Char) (h : beginsWithChars p a = true) :
    beginsWithChars p (a ++ b) = true := by
  induction p generalizing a with
  | nil => rfl
  | cons x xs ih =>
    cases a with
    | nil => simp [beginsWithChars] at h
    | cons c cs =>
      simp only [beginsWithChars, Bool.and_eq_true, decide_eq_true_eq] at h
      simp only [List.cons_append, beginsWithChars, Bool.and_eq_true, decide_eq_true_eq]
      exact ⟨h.1, ih cs h.2⟩

theorem pyStartswith_append (a b pre : String) (h : pyStartswith a pre = true) :
    pyStartswith (a ++ b) pre = true := by
  unfold pyStartswith at h ⊢
  rw [String.data_append]
  exact beginsWithChars_append _ _ _ h

theorem pyIsAbs_mk_cons (cs : List Char) : pyIsAbs ⟨'/' :: cs⟩ = true := by
  simp [pyIsAbs, pyStartswith, beginsWithChars]

theorem pyIsAbs_ne_empty (p : String) (h : pyIsAbs p = true) : p ≠ "" := by
  intro he
  subst he
  simp [pyIsAbs, pyStartswith, beginsWithChars] at h

theorem pyIsAbs_append (a b : String) (h : pyIsAbs a = true) :
    pyIsAbs (a ++ b) = true :=
  pyStartswith_append a b "/" h

theorem pyIsAbs_pyJoin (a b : String) (h : pyIsAbs a = true) :
    pyIsAbs (pyJoin a b) = true := by
  unfold pyJoin
  split
  · next hb => exact hb
  · split
    · exact pyIsAbs_append a b h
    · exact pyIsAbs_append _ b (pyIsAbs_append a "/" h)

theorem initialSlashes_pos (p : String) (h : pyIsAbs p = true) :
    0 < initialSlashes p := by
  unfold initialSlashes
  unfold pyIsAbs at h
  rw [if_pos h]
  split <;> omega

theorem pyIsAbs_repeatSep_append (n : Nat) (hn : 0 < n) (j : String) :
    pyIsAbs (repeatSep n ++ j) = true := by
  have hd : (repeatSep n ++ j).data = '/' :: (List.replicate (n - 1) '/' ++ j.data) := by
    rw [String.data_append]
    show List.replicate n '/' ++ j.data = _
    cases n with
    | zero => omega
    | succ m => simp [List.replicate_succ]
  unfold pyIsAbs pyStartswith
  rw [hd]
  simp [beginsWithChars]

theorem pyIsAbs_pyNormpath (p : String) (h : pyIsAbs p = true) :
    pyIsAbs (pyNormpath p) = true := by
  unfold pyNormpath
  rw [if_neg (pyIsAbs_ne_empty p h)]
  have habs := pyIsAbs_repeatSep_append (initialSlashes p) (initialSlashes_pos p h)
    (pySepJoin "/" ((pySplitChar p '/').foldl (normpathStep (initialSlashes p > 0)) []))
  rw [if_neg (pyIsAbs_ne_empty _ habs)]
  exact habs

theorem pyIsAbs_resolveTarget (wd t : String) (h : pyIsAbs wd = true) :
    pyIsAbs (resolveTarget wd t) = true := by
  unfold resolveTarget
  split
  · next ht => exact ht
  · exact pyIsAbs_pyNormpath _ (pyIsAbs_pyJoin wd t h)

theorem stepLoop_cont_cases (s : Session) (cmd : String) (ec : Int) (s2 : Session)
    (printed : List String) (h : stepLoop s cmd ec = .cont s2 printed) :
    s2 = s ∨ ∃ target, classify cmd = .navigate target ∧ ec = 0 ∧
      s2 = { s with workingDir := resolveTarget s.workingDir target } := by
  cases hc : classify cmd with
  | terminate => simp [stepLoop, hc] at h
  | navigate target =>
    simp only [stepLoop, hc] at h
    split at h
    · next he =>
      right
      refine ⟨target, rfl, he, ?_⟩
      injection h with h1 _
      exact h1.symm
    · left
      injection h with h1 _
      exact h1.symm
  | generic t =>
    simp only [stepLoop, hc] at h
    left
    injection h with h1 _
    exact h1.symm

/-- Counterexample to C1 as stated: the session state with working
directory `/tmp/.` is reachable (one successful `cd /tmp/.` from the
start state, possible because absolute targets skip normalization at
line 198), and `/tmp/.` still contains a `.` segment, i.e. is not
lexically normalized. -/
theorem c1_counterexample :
    Reachable ⟨"root", "/tmp/."⟩ ∧ pyNormpath "/tmp/." ≠ "/tmp/." :=
  ⟨Reachable.step "cd /tmp/." 0 (Reachable.init "root")
    (by decide : stepLoop ⟨"root", "/"⟩ "cd /tmp/." 0 =
      .cont ⟨"root", "/tmp/."⟩ ["Changed directory to: /tmp/."]),
   by decide⟩

/-- C1 (amended): at every prompt the session's working directory is an
absolute path; it starts as `/` and changes only through a navigation
whose verification succeeded, taking the resolved-target value.  (Full
lexical normalization does NOT hold: an absolute `cd` target is stored
verbatim and may retain `.` or `..` segments.) -/
theorem c1_workingDir_invariant (s : Session) (h : Reachable s) :
    pyIsAbs s.workingDir = true ∧
    (∀ cmd ec s2 printed, stepLoop s cmd ec = .cont s2 printed →
      s2.workingDir ≠ s.workingDir →
      ∃ target, classify cmd = .navigate target ∧ ec = 0 ∧
        s2.workingDir = resolveTarget s.workingDir target) := by
  constructor
  · induction h with
    | init u => exact (by decide : pyIsAbs "/" = true)
    | step cmd ec hr heq ih =>
      rcases stepLoop_cont_cases _ _ _ _ _ heq with heq2 | ⟨target, _, _, heq2⟩
      · rw [heq2]; exact ih
      · rw [heq2]; exact pyIsAbs_resolveTarget _ _ ih
  · intro cmd ec s2 printed hstep hne
    rcases stepLoop_cont_cases _ _ _ _ _ hstep with heq2 | ⟨target, hnav, hec, heq2⟩
    · exact absurd (by rw [heq2]) hne
    · exact ⟨target, hnav, hec, by rw [heq2]⟩

/-- Witness for C1: the initial session satisfies the invariant. -/
theorem c1_witness : pyIsAbs (Session.mk "root" "/").workingDir = true :=
  (c1_workingDir_invariant ⟨"root", "/"⟩ (.init "root")).1

theorem stringEqOfData (a b : String) (h : a.data = b.data) : a = b := by
  cases a
  cases b
  exact congrArg String.mk h

theorem beginsWithChars_take (p : List Char) (s : List Char) (n : Nat)
    (h : p.length ≤ n) : beginsWithChars p s = beginsWithChars p (s.take n) := by
  induction p generalizing s n with
  | nil => rfl
  | cons x xs ih =>
    cases s with
    | nil => simp
    | cons c cs =>
      cases n with
      | zero => simp at h
      | succ m =>
        simp only [List.take_succ_cons, beginsWithChars]
        rw [ih cs m (by simpa using h)]

theorem initialSlashes_congr (a b : List Char) (h : a.take 3 = b.take 3) :
    initialSlashes ⟨a⟩ = initialSlashes ⟨b⟩ := by
  unfold initialSlashes pyStartswith
  rw [show (String.mk a).data = a from rfl, show (String.mk b).data = b from rfl,
    show ("/" : String).data = ['/'] from rfl,
    show ("//" : String).data = ['/', '/'] from rfl,
    show ("///" : String).data = ['/', '/', '/'] from rfl,
    beginsWithChars_take ['/'] a 3 (by decide),
    beginsWithChars_take ['/', '/'] a 3 (by decide),
    beginsWithChars_take ['/', '/', '/'] a 3 (by decide),
    beginsWithChars_take ['/'] b 3 (by decide),
    beginsWithChars_take ['/', '/'] b 3 (by decide),
    beginsWithChars_take ['/', '/', '/'] b 3 (by decide), h]

theorem initialSlashes_slash_dot (l : List Char) :
    initialSlashes ⟨l ++ ['/', '.']⟩ = initialSlashes ⟨l ++ ['/']⟩ := by
  match l with
  | [] => decide
  | [c1] =>
    by_cases h1 : ('/' : Char) = c1 <;>
      simp [initialSlashes, pyStartswith, beginsWithChars, h1]
  | c1 :: c2 :: rest =>
    apply initialSlashes_congr
    cases rest <;> simp

theorem initialSlashes_append_slash_dot (a : List Char) (ha : a ≠ [])
    (hend : beginsWithChars ['/'] a.reverse = false) :
    initialSlashes ⟨a ++ ['/', '.']⟩ = initialSlashes ⟨a⟩ := by
  match a with
  | [c1] =>
    simp only [List.reverse_singleton, beginsWithChars, Bool.and_true,
      decide_eq_false_iff_not] at hend
    simp [initialSlashes, pyStartswith, beginsWithChars, hend]
  | [c1, c2] =>
    have hc2 : ¬ (('/' : Char) = c2) := by
      simpa [beginsWithChars] using hend
    by_cases h1 : ('/' : Char) = c1 <;>
      simp [initialSlashes, pyStartswith, beginsWithChars, h1, hc2]
  | c1 :: c2 :: c3 :: rest =>
    apply initialSlashes_congr
    simp

theorem splitCharGo_append_sep (sep : Char) (l m acc : List Char) :
    splitCharGo sep (l ++ sep :: m) acc =
      splitCharGo sep l acc ++ splitCharGo sep m [] := by
  induction l generalizing acc with
  | nil => simp [splitCharGo]
  | cons c cs ih =>
    by_cases hc : c = sep <;> simp [splitCharGo, hc, ih]

theorem foldl_normpathStep_append_dot (h : Bool) (x init : List String) :
    (x ++ ["."]).foldl (normpathStep h) init = x.foldl (normpathStep h) init := by
  rw [List.foldl_append]
  simp [normpathStep]

theorem foldl_normpathStep_append_empty (h : Bool) (x init : List String) :
    (x ++ [""]).foldl (normpathStep h) init = x.foldl (normpathStep h) init := by
  rw [List.foldl_append]
  simp [normpathStep]

theorem mk_append_ne_empty (a b : List Char) (c : Char) :
    (⟨a ++ c :: b⟩ : String) ≠ "" := by
  intro h
  have := congrArg String.data h
  simp at this

theorem normpath_core_eq (l : List Char) :
    pyNormpath ⟨l ++ ['/', '.']⟩ = pyNormpath ⟨l ++ ['/']⟩ := by
  have hne1 : (⟨l ++ ['/', '.']⟩ : String) ≠ "" := by
    have : l ++ ['/', '.'] = l ++ '/' :: ['.'] := rfl
    rw [this]; exact mk_append_ne_empty l ['.'] '/'
  have hne2 : (⟨l ++ ['/']⟩ : String) ≠ "" := mk_append_ne_empty l [] '/'
  unfold pyNormpath
  rw [if_neg hne1, if_neg hne2]
  dsimp only
  have hsplit1 : pySplitChar ⟨l ++ ['/', '.']⟩ '/' = splitCharGo '/' l [] ++ ["."] := by
    show splitCharGo '/' (l ++ '/' :: ['.']) [] = _
    rw [splitCharGo_append_sep]
    rfl
  have hsplit2 : pySplitChar ⟨l ++ ['/']⟩ '/' = splitCharGo '/' l [] ++ [""] := by
    show splitCharGo '/' (l ++ '/' :: []) [] = _
    rw [splitCharGo_append_sep]
    rfl
  rw [initialSlashes_slash_dot l, hsplit1, hsplit2,
    foldl_normpathStep_append_dot, foldl_normpathStep_append_empty]

theorem normpath_append_slash_dot (a : List Char) (ha : a ≠ [])
    (hend : beginsWithChars ['/'] a.reverse = false) :
    pyNormpath ⟨a ++ ['/', '.']⟩ = pyNormpath ⟨a⟩ := by
  have hne1 : (⟨a ++ ['/', '.']⟩ : String) ≠ "" := by
    have : a ++ ['/', '.'] = a ++ '/' :: ['.'] := rfl
    rw [this]; exact mk_append_ne_empty a ['.'] '/'
  have hne2 : (⟨a⟩ : String) ≠ "" := by
    intro h
    have := congrArg String.data h
    simp at this
    exact ha this
  unfold pyNormpath
  rw [if_neg hne1, if_neg hne2]
  dsimp only
  have hsplit : pySplitChar ⟨a ++ ['/', '.']⟩ '/' = pySplitChar ⟨a⟩ '/' ++ ["."] := by
    show splitCharGo '/' (a ++ '/' :: ['.']) [] = splitCharGo '/' a [] ++ _
    rw [splitCharGo_append_sep]
    rfl
  rw [initialSlashes_append_slash_dot a ha hend, hsplit, foldl_normpathStep_append_dot]

theorem pyNormpath_pyJoin_dot (wd : String) :
    pyNormpath (pyJoin wd ".") = pyNormpath wd := by
  by_cases h0 : wd = ""
  · subst h0; decide
  · unfold pyJoin
    rw [if_neg (by decide : ¬ pyStartswith "." "/" = true)]
    by_cases hend : pyEndswith wd "/" = true
    · rw [if_pos (by simp [hend])]
      obtain ⟨c, r, hr⟩ : ∃ c r, wd.data.reverse = c :: r := by
        cases hrev : wd.data.reverse with
        | nil =>
          exfalso
          apply h0
          apply stringEqOfData
          simpa using congrArg List.reverse hrev
        | cons c r => exact ⟨c, r, rfl⟩
      have hc : c = '/' := by
        unfold pyEndswith at hend
        rw [show ("/" : String).data = ['/'] from rfl, hr] at hend
        simp [beginsWithChars] at hend
        exact hend.symm
      subst hc
      have hdata : wd.data = r.reverse ++ ['/'] := by
        have := congrArg List.reverse hr
        simpa using this
      have h1 : wd ++ "." = ⟨r.reverse ++ ['/', '.']⟩ :=
        stringEqOfData _ _ (by rw [String.data_append, hdata]; simp)
      rw [h1]
      conv_rhs => rw [stringEqOfData wd ⟨r.reverse ++ ['/']⟩ hdata]
      exact normpath_core_eq r.reverse
    · rw [if_neg (by simp [h0, hend])]
      have h1 : wd ++ "/" ++ "." = ⟨wd.data ++ ['/', '.']⟩ :=
        stringEqOfData _ _ (by simp [String.data_append])
      have ha : wd.data ≠ [] := by
        intro h
        exact h0 (stringEqOfData wd "" (by simp [h]))
      have hend2 : beginsWithChars ['/'] wd.data.reverse = false := by
        unfold pyEndswith at hend
        rw [show ("/" : String).data = ['/'] from rfl] at hend
        simpa using hend
      rw [h1]
      exact normpath_append_slash_dot wd.data ha hend2

/-- Counterexample to C6 as stated: the session with working directory
`/tmp/.` is reachable (a successful `cd /tmp/.` stores the absolute
target verbatim), and from it a successful `cd .` changes the working
directory: `.` is relative, so the code normalizes `/tmp/./.` to `/tmp`,
which differs from the pre-state value. -/
theorem c6_counterexample :
    Reachable ⟨"root", "/tmp/."⟩ ∧
    stepLoop ⟨"root", "/tmp/."⟩ "cd ." 0 =
      .cont ⟨"root", "/tmp"⟩ ["Changed directory to: /tmp"] ∧
    ("/tmp" : String) ≠ "/tmp/." :=
  ⟨Reachable.step "cd /tmp/." 0 (.init "root")
    (by decide : stepLoop ⟨"root", "/"⟩ "cd /tmp/." 0 =
      .cont ⟨"root", "/tmp/."⟩ ["Changed directory to: /tmp/."]),
   by decide, by decide⟩

/-- C6 (amended): from every reachable session whose working directory is
lexically normalized (in particular every state reached through relative
navigation only), a `cd .` whose verification succeeds leaves the working
directory unchanged; in general `cd .` replaces the working directory by
its lexical normalization, so unnormalized reachable states (stored
verbatim from absolute targets) may change. -/
theorem c6_cd_dot_idempotent (s : Session) (h : Reachable s)
    (hnorm : pyNormpath s.workingDir = s.workingDir) :
    stepLoop s "cd ." 0 = .cont s ["Changed directory to: " ++ s.workingDir] := by
  have hcl : classify "cd ." = .navigate "." := by decide
  have hres : resolveTarget s.workingDir "." = s.workingDir := by
    unfold resolveTarget
    rw [if_neg (by decide : ¬ pyIsAbs "." = true)]
    rw [pyNormpath_pyJoin_dot, hnorm]
  simp [stepLoop, hcl, hres]

/-- Witness for C6: `cd .` at the initial state `/` succeeds and leaves
the directory at `/`. -/
theorem c6_witness :
    stepLoop ⟨"root", "/"⟩ "cd ." 0 = .cont ⟨"root", "/"⟩ ["Changed directory to: /"] :=
  c6_cd_dot_idempotent ⟨"root", "/"⟩ (.init "root") (by decide)
